import Mathlib

/-!
Verification development for the ConsensusCruncher orchestrator
(`ConsensusCruncher.py`) and the consensus-construction engine it drives.

The orchestrator (argument parsing, validation, and the `consensus` /
`fastq2bam` stage sequencing) is embedded from the source file.  The engine
scripts it invokes (`SSCS_maker.py`, `DCS_maker.py`, `singleton_correction.py`)
are not part of this repository snapshot; where their behaviour is needed it
is modelled from the specification, and each such definition is marked
`Modelled from the spec` in its doc comment.
-/

namespace ConsensusCruncher

/-! ## Python value and CLI-parsing model -/

/-- A Python value as it can appear in a parsed argument namespace in this
script: `None`, a `bool`, or a `str`. -/
inductive PyVal where
  | none
  | bool (b : Bool)
  | str (s : String)
deriving DecidableEq, Repr

/-- Python truthiness of a string: `bool(s)` is `False` exactly for the empty
string.  This is the `type=bool` conversion applied to `--scorrect` and
`--cleanup` command-line values (lines 398-399, 403). -/
def pyBool (s : String) : Bool := !s.isEmpty

/-- The `choices=[True, False]` list of the `--scorrect` and `--cleanup`
arguments (lines 398-399, 403). -/
def boolChoices : List Bool := [true, false]

/-- Python `x is True` as used at lines 211 and 286 on a parsed value. -/
def pyIsTrue (v : PyVal) : Bool := v == PyVal.bool true

/-- Python `x is False` as used at lines 172, 198, 219 and 256 on the parsed
bedfile value. -/
def pyIsFalse (v : PyVal) : Bool := v == PyVal.bool false

/-- Python `str(v)` as produced by `'{}'.format(v)` in the engine command
strings. -/
def pyFormat : PyVal → String
  | .none => "None"
  | .bool true => "True"
  | .bool false => "False"
  | .str s => s

/-- argparse resolution of `--scorrect` / `--cleanup` (lines 352-380, 398-399,
403, 407): `set_defaults` from the config file runs before `add_argument`, and
the `add_argument` call passes no `default`, so a config value becomes the
action default (a string default is converted with the action's `type=bool`
at parse time); without a config-supplied default the action default is
Python `None`; a value given on the command line is converted with
`type=bool` and overrides any default. -/
def resolveBoolFlag (cli : Option String) (configDefault : Option PyVal) : PyVal :=
  match cli with
  | some s => PyVal.bool (pyBool s)
  | none =>
    match configDefault with
    | some (PyVal.str s) => PyVal.bool (pyBool s)
    | some v => v
    | none => PyVal.none

/-- argparse resolution of an ordinary string argument of either subcommand
(lines 352-380, 383-397, 407): the config-file value becomes the action
default via `set_defaults`, and a command-line value overrides it. -/
def resolveArg (cli : Option String) (configDefault : Option String) : Option String :=
  match cli with
  | some v => some v
  | none => configDefault

/-- argparse resolution of `--bedfile` (line 400): `add_argument` passes an
explicit `default` (the cytoBand path derived from the code directory), so
that explicit action default — not the config value — fills the namespace
when the flag is absent; a command-line value overrides it.  Both sources
yield a string (`type=str`, and `configparser` values are strings). -/
def resolveBedfile (cli : Option String) (codeDir : String) : String :=
  match cli with
  | some v => v
  | none => codeDir ++ "/ConsensusCruncher/cytoBand.txt"

/-- The parsed `args.bedfile` as a Python value: always a `str`. -/
def parsedBedfile (cli : Option String) (codeDir : String) : PyVal :=
  PyVal.str (resolveBedfile cli codeDir)

/-! ## fastq2bam argument validation (lines 412-433) -/

/-- The characters of the character class in the regex `[^A|C|G|T|N]`
(line 423).  Inside a character class `|` is a literal, so the class matches
any character other than `A`, `|`, `C`, `G`, `T`, `N`. -/
def bpatternRegexChars : List Char := ['A', '|', 'C', 'G', 'T', 'N']

/-- The valid barcode characters named by the error messages and by the blist
regex `[^ACGTN]` (line 428). -/
def acgtn : List Char := ['A', 'C', 'G', 'T', 'N']

/-- `re.findall(r'[^A|C|G|T|N]', p)` is non-empty (line 423). -/
def bpatternFindsInvalid (p : String) : Bool :=
  p.toList.any (fun c => !(bpatternRegexChars.contains c))

/-- `re.search("[^ACGTN]", "".join(blist)) is not None` (line 428). -/
def blistFindsInvalid (bl : List String) : Bool :=
  (String.join bl).toList.any (fun c => !(acgtn.contains c))

/-- A string contains some character outside `{A, C, G, T, N}`. -/
def containsNonACGTN (p : String) : Bool :=
  p.toList.any (fun c => !(acgtn.contains c))

/-- Outcome of the `fastq2bam` validation chain at lines 412-433. -/
inductive ValidationResult where
  /-- `sub_a.error`: a required argument is missing (lines 414-418). -/
  | usageError
  /-- `sub_a.error`: neither `-p` nor `-l` was given (lines 420-421). -/
  | missingBarcode
  /-- `ValueError`: invalid barcode pattern (lines 423-424). -/
  | patternValueError
  /-- `TypeError`: `re.findall` applied to `None` because `args.bpattern`
  is `None` while `args.blist` is set (line 423). -/
  | patternTypeError
  /-- `ValueError`: invalid barcode in the list (lines 426-429). -/
  | listValueError
  /-- `args.func(args)`: barcode extraction and alignment proceed
  (lines 431, 433). -/
  | run
deriving DecidableEq, Repr

/-- The `if`/`elif` validation chain of the `fastq2bam` subcommand
(lines 412-433), embedded over the parsed arguments.  `requiredPresent`
stands for `fastq1`, `fastq2`, `output`, `bwa`, `ref` and `samtools` all
being non-`None`; the barcode list is embedded as its lines. -/
def fastq2bamValidate (requiredPresent : Bool) (bpattern : Option String)
    (blist : Option (List String)) : ValidationResult :=
  if !requiredPresent then ValidationResult.usageError
  else if bpattern.isNone && blist.isNone then ValidationResult.missingBarcode
  else
    match bpattern with
    | none => ValidationResult.patternTypeError
    | some p =>
      if bpatternFindsInvalid p then ValidationResult.patternValueError
      else
        match blist with
        | some bl =>
          if blistFindsInvalid bl then ValidationResult.listValueError
          else ValidationResult.run
        | none => ValidationResult.run

/-! ## SSCS column calling (engine, modelled from the spec) -/

/-- Number of occurrences of base `b` in the column. -/
def baseCount (bases : List Char) (b : Char) : Nat :=
  (bases.filter (fun c => c == b)).length

/-- Modelled from the spec: `SSCS_maker.py` is not under `src/`.  §4.3: the
majority base of a column, "ties broken by first-base-seen order": a left
fold starting from the first base replaces the best base only on a strictly
larger count, so the earliest base among those of maximal count wins. -/
def majorityBase (bases : List Char) : Char :=
  bases.foldl
    (fun best c => if baseCount bases best < baseCount bases c then c else best)
    (bases.headD 'N')

/-- Modelled from the spec: `SSCS_maker.py` is not under `src/`.  §4.3: "a
column is called with the majority base if `count(base) / family_size ≥
cutoff` (default 0.70); else the column is called N", with the comparison
performed on exact rationals. -/
def callColumn (bases : List Char) (cutoff : ℚ) : Char :=
  if cutoff ≤ (baseCount bases (majorityBase bases) : ℚ) / (bases.length : ℚ)
  then majorityBase bases else 'N'

/-! ## The consensus stage sequencer (lines 121-301)

The `consensus` function is embedded as a fallible transformer of an explicit
filesystem state (the set of file paths present), together with a log of the
engine invocations it issues.  `os.rename` and `os.remove` raise
`FileNotFoundError` when the source path is absent; `os.system` and
`subprocess.call` never raise, and the files the external programs create
are added to the state. -/

/-- Whether `pre` is a prefix of the character list `s`. -/
def charsStart : List Char → List Char → Bool
  | _, [] => true
  | [], _ :: _ => false
  | a :: as, b :: bs => a == b && charsStart as bs

/-- The character list before the first occurrence of `sep`. -/
def beforeFirstAux (sep : List Char) : List Char → List Char
  | [] => []
  | c :: rest => if charsStart (c :: rest) sep then [] else c :: beforeFirstAux sep rest

/-- Python `s.split(sep, 1)[0]`: the text before the first occurrence of
`sep`, or the whole string when `sep` does not occur (lines 131, 156). -/
def beforeFirst (sep s : String) : String :=
  String.mk (beforeFirstAux sep.data s.data)

/-- `os.path.basename`: the part of a path after the last `/` (line 156). -/
def basename (s : String) : String :=
  String.mk ((s.data.reverse.takeWhile (fun c => c ≠ '/')).reverse)

/-- One invocation of an engine script by the orchestrator. -/
inductive EngineCall where
  | sscsMaker (infile outfile : String) (cutoff : ℚ) (bedfile : Option String)
  | dcsMaker (infile outfile : String) (bedfile : Option String)
  | singletonCorrection (singleton : String) (bedfile : Option String)
deriving DecidableEq, Repr

/-- The bedfile argument of an engine invocation (`Option.none` when the
script was invoked without `--bedfile`). -/
def engineBedfile : EngineCall → Option String
  | .sscsMaker _ _ _ b => b
  | .dcsMaker _ _ b => b
  | .singletonCorrection _ b => b

/-- Filesystem-and-log state threaded through the `consensus` embedding. -/
structure RunState where
  fs : List String
  calls : List EngineCall
deriving DecidableEq, Repr

/-- `os.rename(src, dst)`: raises `FileNotFoundError` when `src` is absent. -/
def osRename (src dst : String) (st : RunState) : Except String RunState :=
  if st.fs.contains src then
    Except.ok { st with fs := dst :: st.fs.filter (fun p => p ≠ src) }
  else Except.error ("FileNotFoundError: " ++ src)

/-- `os.remove(p)`: raises `FileNotFoundError` when `p` is absent. -/
def osRemove (p : String) (st : RunState) : Except String RunState :=
  if st.fs.contains p then
    Except.ok { st with fs := st.fs.filter (fun q => q ≠ p) }
  else Except.error ("FileNotFoundError: " ++ p)

/-- `samtools merge out in1 in2 in3` via `subprocess.call` (lines 242, 272):
never raises; the merged output exists afterwards when the inputs do. -/
def samtoolsMerge (out : String) (ins : List String) (st : RunState) : RunState :=
  if ins.all st.fs.contains then { st with fs := out :: st.fs } else st

/-- `sort_index` (lines 121-140): `samtools sort` writes
`<prefix>.sorted.bam` (the file is created by `open(..., 'w')`
unconditionally), `os.remove` deletes the unsorted input (raising when it is
absent), `samtools index` writes the `.bai`, and the sorted path is
returned. -/
def sort_index (bam : String) (st : RunState) : Except String (String × RunState) :=
  let identifier := beforeFirst ".bam" bam
  let sorted_bam := identifier ++ ".sorted.bam"
  let st := { st with fs := sorted_bam :: st.fs }
  if st.fs.contains bam then
    Except.ok (sorted_bam,
      { st with fs := (sorted_bam ++ ".bai") :: st.fs.filter (fun p => p ≠ bam) })
  else Except.error ("FileNotFoundError: " ++ bam)

/-- Modelled from the spec: `SSCS_maker.py` is not under `src/`.  Per §4.3
and §6 (and the paths the orchestrator later renames), it writes, next to
its `--outfile` (the SSCS BAM): the singleton BAM, the statistics file, the
per-stage timing log, the family-size plot image, the family-size histogram
text file, and a bad-read BAM. -/
def sscsMakerFiles (sample_dir identifier : String) : List String :=
  [ sample_dir ++ "/sscs/" ++ identifier ++ ".sscs.bam",
    sample_dir ++ "/sscs/" ++ identifier ++ ".singleton.bam",
    sample_dir ++ "/sscs/" ++ identifier ++ ".stats.txt",
    sample_dir ++ "/sscs/" ++ identifier ++ ".time_tracker.txt",
    sample_dir ++ "/sscs/" ++ identifier ++ "_tag_fam_size.png",
    sample_dir ++ "/sscs/" ++ identifier ++ ".read_families.txt",
    sample_dir ++ "/sscs/" ++ identifier ++ ".badReads.bam" ]

/-- Modelled from the spec: `DCS_maker.py` is not under `src/`.  Per §4.4 and
§6 (and the paths the orchestrator sorts at lines 206 and 265), it writes its
`--outfile` (the DCS BAM) and, next to it, a BAM of the SSCS that could not
form a duplex. -/
def dcsMakerFiles (outfile sscsSingleton : String) : List String :=
  [outfile, sscsSingleton]

/-- Modelled from the spec: `singleton_correction.py` is not under `src/`.
Per §4.5 and §6 (and the paths the orchestrator renames at lines 226-234),
it writes, next to its input singleton BAM: the corrected-SSCS BAM, the
corrected-singleton BAM, and the uncorrected-singleton BAM. -/
def singletonCorrectionFiles (sample_dir identifier : String) : List String :=
  [ sample_dir ++ "/sscs/" ++ identifier ++ ".sscs.correction.bam",
    sample_dir ++ "/sscs/" ++ identifier ++ ".singleton.correction.bam",
    sample_dir ++ "/sscs/" ++ identifier ++ ".uncorrected.bam" ]

/-- Parsed arguments of the `consensus` subcommand. -/
structure ConsensusArgs where
  bam : String
  c_output : String
  scorrect : PyVal
  bedfile : PyVal
  cutoff : ℚ
  cleanup : PyVal
deriving DecidableEq, Repr

/-- The `consensus` command (lines 143-301), embedded step by step: the SSCS
stage, sort/index, the DCS stage, the optional singleton-correction block
(guarded by `args.scorrect is True`, line 211), the unconditional relocation
of stats/timing/plot/histogram (lines 275-283), and the optional cleanup
block (guarded by `args.cleanup is True`, lines 286-301). -/
def consensus (args : ConsensusArgs) (st0 : RunState) : Except String RunState := do
  let identifier := beforeFirst ".bam" (basename args.bam)
  let sample_dir := args.c_output ++ "/" ++ identifier
  let bedArg : Option String :=
    if pyIsFalse args.bedfile then Option.none else some (pyFormat args.bedfile)
  -- SSCS (lines 163-181)
  let sscs := sample_dir ++ "/sscs/" ++ identifier ++ ".sscs.bam"
  let sing := sample_dir ++ "/sscs/" ++ identifier ++ ".singleton.bam"
  let st0 := { st0 with
    calls := st0.calls ++ [EngineCall.sscsMaker args.bam sscs args.cutoff bedArg],
    fs := sscsMakerFiles sample_dir identifier ++ st0.fs }
  let (sscs, st1) ← sort_index sscs st0
  let (sing, st2) ← sort_index sing st1
  -- DCS (lines 183-206)
  let dcs := sample_dir ++ "/dcs/" ++ identifier ++ ".dcs.bam"
  let sscs_sing := sample_dir ++ "/dcs/" ++ identifier ++ ".sscs.singleton.bam"
  let st3 ← osRename (sample_dir ++ "/sscs/" ++ identifier ++ ".stats.txt")
      (sample_dir ++ "/dcs/" ++ identifier ++ ".stats.txt") st2
  let st4 ← osRename (sample_dir ++ "/sscs/" ++ identifier ++ ".time_tracker.txt")
      (sample_dir ++ "/dcs/" ++ identifier ++ ".time_tracker.txt") st3
  let st5 := { st4 with
    calls := st4.calls ++ [EngineCall.dcsMaker sscs dcs bedArg],
    fs := dcsMakerFiles dcs sscs_sing ++ st4.fs }
  let (_, st6) ← sort_index dcs st5
  let (_, st7) ← sort_index sscs_sing st6
  -- Singleton correction (lines 208-273)
  let st8 ←
    if pyIsTrue args.scorrect then do
      let s1 ← osRename (sample_dir ++ "/dcs/" ++ identifier ++ ".stats.txt")
          (sample_dir ++ "/sscs/" ++ identifier ++ ".stats.txt") st7
      let s2 ← osRename (sample_dir ++ "/dcs/" ++ identifier ++ ".time_tracker.txt")
          (sample_dir ++ "/sscs/" ++ identifier ++ ".time_tracker.txt") s1
      let s3 := { s2 with
        calls := s2.calls ++ [EngineCall.singletonCorrection sing bedArg],
        fs := singletonCorrectionFiles sample_dir identifier ++ s2.fs }
      let sscs_cor := sample_dir ++ "/sscs_sc/" ++ identifier ++ ".sscs.correction.bam"
      let s4 ← osRename (sample_dir ++ "/sscs/" ++ identifier ++ ".sscs.correction.bam")
          sscs_cor s3
      let (sscs_cor, s5) ← sort_index sscs_cor s4
      let sing_cor := sample_dir ++ "/sscs_sc/" ++ identifier ++ ".singleton.correction.bam"
      let s6 ← osRename (sample_dir ++ "/sscs/" ++ identifier ++ ".singleton.correction.bam")
          sing_cor s5
      let (sing_cor, s7) ← sort_index sing_cor s6
      let uncorrected := sample_dir ++ "/sscs_sc/" ++ identifier ++ ".uncorrected.bam"
      let s8 ← osRename (sample_dir ++ "/sscs/" ++ identifier ++ ".uncorrected.bam")
          uncorrected s7
      let (uncorrected, s9) ← sort_index uncorrected s8
      -- SSCS + SC (lines 237-243)
      let sscs_sc := sample_dir ++ "/sscs_sc/" ++ identifier ++ ".sscs.sc.bam"
      let s10 := samtoolsMerge sscs_sc [sscs, sscs_cor, sing_cor] s9
      let (sscs_sc, s11) ← sort_index sscs_sc s10
      -- DCS + SC (lines 245-265)
      let dcs_sc := sample_dir ++ "/dcs_sc/" ++ identifier ++ ".dcs.sc.bam"
      let s12 ← osRename (sample_dir ++ "/sscs/" ++ identifier ++ ".stats.txt")
          (sample_dir ++ "/dcs_sc/" ++ identifier ++ ".stats.txt") s11
      let s13 ← osRename (sample_dir ++ "/sscs/" ++ identifier ++ ".time_tracker.txt")
          (sample_dir ++ "/dcs_sc/" ++ identifier ++ ".time_tracker.txt") s12
      let sscs_sc_sing := sample_dir ++ "/dcs_sc/" ++ identifier ++ ".sscs.sc.singleton.bam"
      let s14 := { s13 with
        calls := s13.calls ++ [EngineCall.dcsMaker sscs_sc dcs_sc bedArg],
        fs := dcsMakerFiles dcs_sc sscs_sc_sing ++ s13.fs }
      let (dcs_sc, s15) ← sort_index dcs_sc s14
      let (sscs_sc_sing, s16) ← sort_index sscs_sc_sing s15
      -- All unique molecules (lines 267-273)
      let all_unique := sample_dir ++ "/dcs_sc/" ++ identifier ++ ".all.unique.dcs.bam"
      let s17 := samtoolsMerge all_unique [dcs_sc, sscs_sc_sing, uncorrected] s16
      let (_, s18) ← sort_index all_unique s17
      pure s18
    else pure st7
  -- Move stats, time tracker, plot, histogram to sample dir (lines 275-283)
  let st9 ← osRename (sample_dir ++ "/dcs_sc/" ++ identifier ++ ".stats.txt")
      (sample_dir ++ "/" ++ identifier ++ ".stats.txt") st8
  let st10 ← osRename (sample_dir ++ "/dcs_sc/" ++ identifier ++ ".time_tracker.txt")
      (sample_dir ++ "/" ++ identifier ++ ".time_tracker.txt") st9
  let st11 ← osRename (sample_dir ++ "/sscs/" ++ identifier ++ "_tag_fam_size.png")
      (sample_dir ++ "/" ++ identifier ++ "_tag_fam_size.png") st10
  let st12 ← osRename (sample_dir ++ "/sscs/" ++ identifier ++ ".read_families.txt")
      (sample_dir ++ "/" ++ identifier ++ ".read_families.txt") st11
  -- Remove intermediate files (lines 285-301)
  if pyIsTrue args.cleanup then do
    let c1 ← osRemove (sample_dir ++ "/" ++ identifier ++ ".time_tracker.txt") st12
    let c2 ← osRemove (sample_dir ++ "/sssc/" ++ identifier ++ ".badReads.bam") c1
    let c3 ← osRemove (sample_dir ++ "/dcs/" ++ identifier ++ ".sscs.singleton.sorted.bam") c2
    let c4 ← osRemove
      (sample_dir ++ "/dcs/" ++ identifier ++ ".sscs.singleton.sorted.bam.bai") c3
    let c5 ← osRemove
      (sample_dir ++ "/sssc_sc/" ++ identifier ++ ".singleton.correction.sorted.bam") c4
    let c6 ← osRemove
      (sample_dir ++ "/sssc_sc/" ++ identifier ++ ".singleton.correction.sorted.bam.bai") c5
    let c7 ← osRemove
      (sample_dir ++ "/sssc_sc/" ++ identifier ++ ".sscs.correction.sorted.bam") c6
    let c8 ← osRemove
      (sample_dir ++ "/sssc_sc/" ++ identifier ++ ".sscs.correction.sorted.bam.bai") c7
    let c9 ← osRemove (sample_dir ++ "/sssc_sc/" ++ identifier ++ ".uncorrected.sorted.bam") c8
    let c10 ← osRemove
      (sample_dir ++ "/sssc_sc/" ++ identifier ++ ".uncorrected.sorted.bam.bai") c9
    let c11 ← osRemove
      (sample_dir ++ "/dcs_sc/" ++ identifier ++ ".sscs.sc.singleton.sorted.bam") c10
    let c12 ← osRemove
      (sample_dir ++ "/dcs_sc/" ++ identifier ++ ".sscs.sc.singleton.sorted.bam.bai") c11
    pure c12
  else pure st12

/-! ## Families and read conservation (engine, modelled from the spec)

The Family Grouper, SSCS Caller, DCS Merger, Singleton Corrector and
Molecule Merger live in the engine scripts, which are not under `src/`;
the grouping and routing of reads is modelled from §3 and §4.2-§4.6 of the
specification. -/

/-- Modelled from the spec (§3, §4.2): the grouping key of a read —
(reference contig, alignment start, CIGAR-derived end, strand, UMI-pair
code). -/
structure ReadKey where
  contig : String
  start : Nat
  stop : Nat
  strand : Bool
  umiPair : String
deriving DecidableEq, Repr

/-- Modelled from the spec (§3): an aligned input read (the fields beyond
the grouping key are summarized by its base string). -/
structure Read where
  key : ReadKey
  bases : String
deriving DecidableEq, Repr

/-- Modelled from the spec (§4.4, §9): swap the two halves of a UMI-pair
code (the spec leaves the canonical ordering open; only that the halves are
swapped). -/
def swapUMIHalves (u : String) : String :=
  String.mk (u.data.drop (u.data.length / 2) ++ u.data.take (u.data.length / 2))

/-- Modelled from the spec (§4.4): the complementary key — same
contig/start/end, strand flipped, UMI halves swapped. -/
def complementKey (k : ReadKey) : ReadKey :=
  { k with strand := !k.strand, umiPair := swapUMIHalves k.umiPair }

/-- Modelled from the spec (§4.2): the distinct family keys of an input, in
first-seen order. -/
def familyKeys (reads : List Read) : List ReadKey :=
  (reads.map Read.key).dedup

/-- Modelled from the spec (§4.2): the family of a key — all reads sharing
it. -/
def familyOf (reads : List Read) (k : ReadKey) : List Read :=
  reads.filter (fun r => r.key == k)

/-- The kind of final output record a family's reads end up in. -/
inductive Route where
  | dcs
  | unpairedSSCS
  | correctedSingleton
  | uncorrectedSingleton
deriving DecidableEq, Repr

/-- Modelled from the spec (§4.3-§4.6): the single output record a family
contributes to.  A family of size 1 is a singleton: corrected when
singleton correction is enabled and a consensus with the complementary key
exists, otherwise uncorrected.  A larger family's SSCS merges into a DCS
when the complementary consensus exists, otherwise it passes through as
SSCS without duplex.  `hasSSCS` abstracts "a consensus record with that key
exists". -/
def routeFamily (scEnabled : Bool) (hasSSCS : ReadKey → Bool) (k : ReadKey)
    (size : Nat) : Route :=
  if size == 1 then
    if scEnabled && hasSSCS (complementKey k) then Route.correctedSingleton
    else Route.uncorrectedSingleton
  else if hasSSCS (complementKey k) then Route.dcs
  else Route.unpairedSSCS

/-- The number of input read-equivalents reaching output `r`: the total size
of the families routed to `r`. -/
def routeReadCount (reads : List Read) (sc : Bool) (hasSSCS : ReadKey → Bool)
    (r : Route) : Nat :=
  (((familyKeys reads).filter
      (fun k => routeFamily sc hasSSCS k (familyOf reads k).length == r)).map
    (fun k => (familyOf reads k).length)).sum

/-- A read key for the witness examples. -/
def wKey1 : ReadKey :=
  { contig := "chr1", start := 100, stop := 150, strand := true, umiPair := "ACTG" }

/-- The complementary-strand key of `wKey1`. -/
def wKey2 : ReadKey :=
  { contig := "chr1", start := 100, stop := 150, strand := false, umiPair := "TGAC" }

/-- A concrete input: a duplex family of two reads plus a singleton on the
complementary strand. -/
def wReads : List Read :=
  [ { key := wKey1, bases := "AAAA" },
    { key := wKey1, bases := "AAGA" },
    { key := wKey2, bases := "AAAA" } ]

/-- A sample input state: one aligned BAM file, no engine calls issued. -/
def initialState : RunState := { fs := ["bamfiles/s1.bam"], calls := [] }

/-- A consensus run with singleton correction not enabled (the parsed flag is
Python `None`, as when the flag is absent and no config file is given). -/
def scOffArgs : ConsensusArgs :=
  { bam := "bamfiles/s1.bam", c_output := "output", scorrect := PyVal.none,
    bedfile := PyVal.str "cytoBand.txt", cutoff := 7/10, cleanup := PyVal.none }

/-- A consensus run with singleton correction on and cleanup requested. -/
def cleanupArgs : ConsensusArgs :=
  { bam := "bamfiles/s1.bam", c_output := "output", scorrect := PyVal.bool true,
    bedfile := PyVal.str "cytoBand.txt", cutoff := 7/10, cleanup := PyVal.bool true }

/-- A consensus run with singleton correction on and no cleanup. -/
def noCleanupArgs : ConsensusArgs :=
  { bam := "bamfiles/s1.bam", c_output := "output", scorrect := PyVal.bool true,
    bedfile := PyVal.str "cytoBand.txt", cutoff := 7/10, cleanup := PyVal.none }

/-- A consensus run where the user passed `-b False` on the command line, as
the help text documents for disabling segmentation: the parsed value is the
string `"False"`. -/
def bedFalseArgs : ConsensusArgs :=
  { bam := "bamfiles/s1.bam", c_output := "output", scorrect := PyVal.bool true,
    bedfile := parsedBedfile (some "False") "CODE", cutoff := 7/10,
    cleanup := PyVal.none }

end ConsensusCruncher

namespace ConsensusCruncher

/-! ## Helper lemmas -/

/-- Splitting a list by a Boolean predicate preserves its length. -/
theorem length_filter_add_length_filter_not {α : Type} (p : α → Bool) (l : List α) :
    (l.filter p).length + (l.filter (fun x => !(p x))).length = l.length := by
  induction l with
  | nil => rfl
  | cons a t ih =>
    cases h : p a <;> simp [List.filter_cons, h] <;> omega

/-- Splitting a list of keys by a `Route`-valued function is a partition:
summing any weight over the four parts recovers the whole sum. -/
theorem route_partition_sum {κ : Type} (f : κ → Route) (g : κ → Nat) (ks : List κ) :
    ((ks.filter fun k => f k == Route.dcs).map g).sum
    + ((ks.filter fun k => f k == Route.unpairedSSCS).map g).sum
    + ((ks.filter fun k => f k == Route.correctedSingleton).map g).sum
    + ((ks.filter fun k => f k == Route.uncorrectedSingleton).map g).sum
    = (ks.map g).sum := by
  induction ks with
  | nil => rfl
  | cons k ks ih =>
    cases h : f k <;> simp [List.filter_cons, h] <;> omega

/-- The fibers of a key function over a duplicate-free covering list of keys
partition the list: their lengths sum to the length of the list. -/
theorem sum_length_filter_eq {α κ : Type} [DecidableEq κ] (key : α → κ) :
    ∀ (ks : List κ), ks.Nodup → ∀ (l : List α), (∀ x ∈ l, key x ∈ ks) →
      (ks.map (fun k => (l.filter (fun x => key x == k)).length)).sum = l.length := by
  intro ks
  induction ks with
  | nil =>
    intro _ l hcov
    cases l with
    | nil => rfl
    | cons a t => exact absurd (hcov a (List.mem_cons_self a t)) (List.not_mem_nil (key a))
  | cons k ks ih =>
    intro hnd l hcov
    have hknot := (List.nodup_cons.mp hnd).1
    have hnd' := (List.nodup_cons.mp hnd).2
    have htail : ∀ k' ∈ ks,
        (fun k' => (l.filter (fun x => key x == k')).length) k'
          = (fun k' => ((l.filter (fun x => !(key x == k))).filter
              (fun x => key x == k')).length) k' := by
      intro k' hk'
      have hne : k' ≠ k := fun h => hknot (h ▸ hk')
      simp only []
      congr 1
      rw [List.filter_filter]
      apply List.filter_congr
      intro x hx
      cases hkx : (key x == k') with
      | false => simp [hkx]
      | true =>
        have hxk : key x = k' := by exact eq_of_beq hkx
        simp [hkx, hxk, hne]
    have hcov' : ∀ x ∈ l.filter (fun x => !(key x == k)), key x ∈ ks := by
      intro x hx
      have hxl := List.mem_of_mem_filter hx
      have hxp := List.of_mem_filter hx
      rcases List.mem_cons.mp (hcov x hxl) with h | h
      · exfalso
        rw [h] at hxp
        simp at hxp
      · exact h
    calc ((k :: ks).map fun k' => (l.filter (fun x => key x == k')).length).sum
        = (l.filter (fun x => key x == k)).length
          + (ks.map fun k' => (l.filter (fun x => key x == k')).length).sum := by
          simp
      _ = (l.filter (fun x => key x == k)).length
          + (ks.map fun k' => ((l.filter fun x => !(key x == k)).filter
              (fun x => key x == k')).length).sum := by
          rw [List.map_congr_left htail]
      _ = (l.filter (fun x => key x == k)).length
          + (l.filter fun x => !(key x == k)).length := by
          rw [ih hnd' _ hcov']
      _ = l.length := length_filter_add_length_filter_not _ l

/-! ## Claim theorems -/

/-- Claim C1: the SSCS Caller calls the majority base exactly when its count
divided by the family size is at least the cutoff (exact rational
comparison, so a fraction landing exactly on the cutoff calls the base),
and calls `N` when the fraction is strictly below the cutoff. -/
theorem sscs_cutoff_boundary (bases : List Char) (cutoff : ℚ)
    (hmaj : majorityBase bases ≠ 'N') :
    (callColumn bases cutoff = majorityBase bases ↔
      cutoff ≤ (baseCount bases (majorityBase bases) : ℚ) / (bases.length : ℚ))
    ∧ ((baseCount bases (majorityBase bases) : ℚ) / (bases.length : ℚ) < cutoff →
      callColumn bases cutoff = 'N') := by
  unfold callColumn
  by_cases h : cutoff ≤ (baseCount bases (majorityBase bases) : ℚ) / (bases.length : ℚ)
  · refine ⟨⟨fun _ => h, fun _ => by simp [h]⟩, fun hlt => absurd h (not_le.mpr hlt)⟩
  · refine ⟨⟨fun hcall => ?_, fun hle => absurd hle h⟩, fun _ => by simp [h]⟩
    rw [if_neg h] at hcall
    exact absurd hcall.symm hmaj

/-- Witness for C1 at the spec's own scenarios: a family column `A,A,G` with
cutoff 0.7 is called `N` (2/3 < 7/10), and a family column `A,A,A,A,G` is
called `A` (4/5 ≥ 7/10). -/
theorem sscs_cutoff_boundary_witness :
    callColumn ['A', 'A', 'G'] (7/10) = 'N'
    ∧ callColumn ['A', 'A', 'A', 'A', 'G'] (7/10) = 'A' := by
  constructor
  · refine (sscs_cutoff_boundary ['A', 'A', 'G'] (7/10) (by decide)).2 ?_
    have hm : majorityBase ['A', 'A', 'G'] = 'A' := by decide
    have hc : baseCount ['A', 'A', 'G'] 'A' = 2 := by decide
    rw [hm, hc]
    norm_num [List.length_cons, List.length_nil]
  · have hm : majorityBase ['A', 'A', 'A', 'A', 'G'] = 'A' := by decide
    have hc : baseCount ['A', 'A', 'A', 'A', 'G'] 'A' = 4 := by decide
    have h := (sscs_cutoff_boundary ['A', 'A', 'A', 'A', 'G'] (7/10) (by decide)).1.mpr ?_
    · rw [hm] at h
      exact h
    · rw [hm, hc]
      norm_num [List.length_cons, List.length_nil]

/-- Claim C2: conservation — the four output kinds (DCS, unpaired SSCS,
corrected singleton, uncorrected singleton) receive, between them, every
input read exactly once: summing output read-equivalents recovers the input
read count, and every read belongs to exactly one family (its key occurs
exactly once among the family keys). -/
theorem read_conservation (reads : List Read) (sc : Bool) (hasSSCS : ReadKey → Bool) :
    routeReadCount reads sc hasSSCS Route.dcs
    + routeReadCount reads sc hasSSCS Route.unpairedSSCS
    + routeReadCount reads sc hasSSCS Route.correctedSingleton
    + routeReadCount reads sc hasSSCS Route.uncorrectedSingleton
    = reads.length
    ∧ ∀ x ∈ reads, (familyKeys reads).countP (fun k => k == x.key) = 1 := by
  constructor
  · unfold routeReadCount
    rw [route_partition_sum (fun k => routeFamily sc hasSSCS k (familyOf reads k).length)
      (fun k => (familyOf reads k).length) (familyKeys reads)]
    have h := sum_length_filter_eq Read.key (familyKeys reads) (List.nodup_dedup _)
      reads (fun x hx => List.mem_dedup.mpr (List.mem_map_of_mem Read.key hx))
    simpa [familyOf] using h
  · intro x hx
    have hmem : x.key ∈ familyKeys reads :=
      List.mem_dedup.mpr (List.mem_map_of_mem Read.key hx)
    have hnd : (familyKeys reads).Nodup := List.nodup_dedup _
    simpa [List.count] using List.count_eq_one_of_mem hnd hmem

/-- Witness for C2 at a concrete input of three reads (a duplex family of
two plus a complementary singleton): the output read-equivalents sum to 3,
and the first read's key occurs exactly once among the family keys. -/
theorem read_conservation_witness :
    routeReadCount wReads true (fun _ => true) Route.dcs
    + routeReadCount wReads true (fun _ => true) Route.unpairedSSCS
    + routeReadCount wReads true (fun _ => true) Route.correctedSingleton
    + routeReadCount wReads true (fun _ => true) Route.uncorrectedSingleton = 3
    ∧ (familyKeys wReads).countP (fun k => k == wKey1) = 1 := by
  have h := read_conservation wReads true (fun _ => true)
  exact ⟨h.1, h.2 { key := wKey1, bases := "AAAA" } (by decide)⟩

/-- Claim C4 (code bug evidence): with no `--scorrect` flag on the command
line and no config file, the parsed `args.scorrect` is Python `None`, so the
`args.scorrect is True` guard of the singleton-correction stage (line 211)
is false and singleton correction is NOT enabled, contradicting the
documented default.  (Only when a config file is present does the script's
built-in defaults dict supply `True`.) -/
theorem scorrect_default_is_none :
    resolveBoolFlag Option.none Option.none = PyVal.none
    ∧ pyIsTrue (resolveBoolFlag Option.none Option.none) = false
    ∧ pyIsTrue (resolveBoolFlag Option.none (some (PyVal.bool true))) = true := by
  decide

/-- Claim C5 (code bug evidence): the character `|` is outside
`{A, C, G, T, N}`, yet a barcode pattern containing it passes the pattern
regex `[^A|C|G|T|N]` (in a character class `|` is a literal), so validation
falls through to `args.func(args)` and extraction begins with the invalid
pattern. -/
theorem bpattern_pipe_escapes_validation :
    acgtn.contains '|' = false
    ∧ containsNonACGTN "NN|NN" = true
    ∧ fastq2bamValidate true (some "NN|NN") Option.none = ValidationResult.run := by
  decide

/-- Claim C6: for every barcode list supplied without a barcode pattern (all
required arguments present), the validation chain reaches
`re.findall(r'[^A|C|G|T|N]', None)` which raises `TypeError`, so the
list-only configuration never reaches the processing stage. -/
theorem blist_only_raises_typeerror (bl : List String) :
    fastq2bamValidate true Option.none (some bl) = ValidationResult.patternTypeError
    ∧ ValidationResult.patternTypeError ≠ ValidationResult.run := by
  constructor
  · rfl
  · intro h
    exact ValidationResult.noConfusion h

/-- Claim C9: a value given on the command line always wins over a
config-file value; a config-file value fills the argument only when the flag
is absent from the command line (and for `--bedfile`, whose `add_argument`
carries an explicit default, the config value is never consulted — the
explicit default fills the gap instead, so config values are still used only
for arguments not given on the command line). -/
theorem cli_overrides_config (v c codeDir : String) :
    resolveArg (some v) (some c) = some v
    ∧ resolveArg Option.none (some c) = some c
    ∧ resolveBoolFlag (some v) (some (PyVal.str c)) = PyVal.bool (pyBool v)
    ∧ resolveBedfile (some v) codeDir = v := by
  exact ⟨rfl, rfl, rfl, rfl⟩

/-- Claim C10: any non-empty string passed to `--scorrect` or `--cleanup` is
converted by `type=bool` to `True` (which satisfies the
`choices=[True, False]` check), so e.g. `--scorrect False` enables the
feature; only the empty string yields `False`. -/
theorem bool_flag_nonempty_is_true (s : String) (cfg : Option PyVal) (h : s ≠ "") :
    resolveBoolFlag (some s) cfg = PyVal.bool true
    ∧ boolChoices.contains (pyBool s) = true
    ∧ resolveBoolFlag (some "") cfg = PyVal.bool false := by
  have hb : pyBool s = true := by
    have he : s.isEmpty = false := by
      cases he : s.isEmpty
      · rfl
      · exact absurd ((String.isEmpty_iff s).mp he) h
    simp [pyBool, he]
  refine ⟨?_, by simp [boolChoices, hb], ?_⟩
  · show PyVal.bool (pyBool s) = PyVal.bool true
    rw [hb]
  · rfl

/-- Witness for C10 at the concrete string "False": passing `--scorrect
False` parses to `True`. -/
theorem bool_flag_nonempty_is_true_witness :
    resolveBoolFlag (some "False") Option.none = PyVal.bool true
    ∧ boolChoices.contains (pyBool "False") = true
    ∧ resolveBoolFlag (some "") Option.none = PyVal.bool false :=
  bool_flag_nonempty_is_true "False" Option.none (by decide)

/-- Claim C3 (code bug evidence): with singleton correction disabled, the
unconditional finalization renames (lines 275-279) still read from the
`dcs_sc` directory, which only the correction block creates — the stats file
is still under `dcs/` — so the run raises `FileNotFoundError` instead of
completing finalization, and no all-unique merge is performed at all (the
only `samtools merge` calls are inside the correction block). -/
theorem scorrect_off_crashes_before_finalization :
    (match consensus scOffArgs initialState with
     | Except.error e => e == "FileNotFoundError: output/s1/dcs_sc/s1.stats.txt"
     | Except.ok _ => false) = true := by
  decide

/-- Claim C7 (code bug evidence): the documented disabled sentinel `-b False`
parses to the string `"False"` (the option has `type=str`), which is not
Python `False`, so the `args.bedfile is False` branch is not taken and every
engine stage — SSCS maker, both DCS maker runs, and singleton correction —
is invoked with `--bedfile False` as a path. -/
theorem bedfile_false_sentinel_ignored :
    pyIsFalse (parsedBedfile (some "False") "CODE") = false
    ∧ (match consensus bedFalseArgs initialState with
       | Except.ok st =>
          st.calls.length == 4
            && st.calls.all (fun c => engineBedfile c == some "False")
       | Except.error _ => false) = true := by
  exact ⟨rfl, by decide⟩

/-- Claim C8 (code bug evidence): the cleanup block spells the
singleton-correction directories `sssc` and `sssc_sc` (lines 288, 293-298)
instead of `sscs` and `sscs_sc`, so its second `os.remove` raises
`FileNotFoundError` — the enumerated intermediates are not deleted; the
bad-read file it meant to delete actually sits under `sscs/`, as the same
run without cleanup shows. -/
theorem cleanup_typo_crashes :
    (match consensus cleanupArgs initialState with
     | Except.error e => e == "FileNotFoundError: output/s1/sssc/s1.badReads.bam"
     | Except.ok _ => false) = true
    ∧ (match consensus noCleanupArgs initialState with
       | Except.ok st => st.fs.contains "output/s1/sscs/s1.badReads.bam"
       | Except.error _ => false) = true := by
  exact ⟨by decide, by decide⟩

end ConsensusCruncher
